import Mathlib

/-!
Shallow embedding of the telemetry sampling and rolling-history subsystem of
the PerformanceMonitorWidget repository.

Sources embedded here:
* `Gui.cpp`, `Gui::RenderPerformanceWindow` (lines 165-177): the CPU history
  ring buffer kept in the function-local statics `cpuHistory[90]`,
  `historyIndex` and `filled`, and the `ImGui::PlotLines` call that displays
  it with `values_count = 90` and `values_offset = filled ? historyIndex : 0`.
* `PerformanceMonitor.cpp`: the constructor, `Initialize`/`Shutdown`/`Update`
  and the private helper `GetWmiPropertyValue`.

Modelling conventions:
* C `float` values are modelled as exact rationals (ℚ); none of the verified
  properties depends on IEEE rounding, only on which value is stored and on
  sign / magnitude facts that survive the idealisation.
* The 32-bit unsigned `ULONG` arithmetic of the memory path is modelled
  exactly, with explicit reduction modulo 2^32.
* WMI, the external provider, is modelled as an environment value describing
  the outcome of each query a refresh cycle performs.
-/

namespace PerfOverlay

/-! ## History buffer (Gui.cpp lines 165-177) -/

/-- The ring-buffer state held in the static locals of
`Gui::RenderPerformanceWindow`: `float cpuHistory[90]`, `int historyIndex`,
`bool filled`. -/
structure HistoryBuffer where
  storage : List ℚ
  writeIndex : Nat
  filled : Bool
deriving DecidableEq

/-- Zero-initialised statics: `cpuHistory[90] = {}`, `historyIndex = 0`,
`filled = false`. -/
def HistoryBuffer.emptyBuf : HistoryBuffer :=
  ⟨List.replicate 90 0, 0, false⟩

/-- One history update, verbatim from Gui.cpp lines 169-174:
`cpuHistory[historyIndex] = cpu; if (historyIndex == 89) filled = true;
historyIndex = (historyIndex + 1) % 90;`. -/
def HistoryBuffer.push (b : HistoryBuffer) (v : ℚ) : HistoryBuffer :=
  { storage := b.storage.set b.writeIndex v
    filled := if b.writeIndex = 89 then true else b.filled
    writeIndex := (b.writeIndex + 1) % 90 }

/-- Pushing a whole chronological sequence of samples, oldest first. -/
def HistoryBuffer.pushAll (b : HistoryBuffer) (xs : List ℚ) : HistoryBuffer :=
  xs.foldl HistoryBuffer.push b

/-- The sequence the graph displays.  Gui.cpp line 176 calls
`ImGui::PlotLines(.., cpuHistory, 90, filled ? historyIndex : 0, ..)`;
PlotLines with `values_count = 90` and `values_offset = o` reads
`values[(o + i) % 90]` for `i = 0 .. 89`, i.e. the rotation of `storage`
starting at `o`.  This is the code-level realisation of the specification
operation `SnapshotOrdered`. -/
def HistoryBuffer.snapshotOrdered (b : HistoryBuffer) : List ℚ :=
  if b.filled then b.storage.drop b.writeIndex ++ b.storage.take b.writeIndex
  else b.storage

/-- Chronological rotation of the storage starting at the write index. -/
def HistoryBuffer.content (b : HistoryBuffer) : List ℚ :=
  b.storage.drop b.writeIndex ++ b.storage.take b.writeIndex

/-- Structural well-formedness of the ring buffer state. -/
def HistoryBuffer.WF (b : HistoryBuffer) : Prop :=
  b.storage.length = 90 ∧ b.writeIndex < 90

/-- Abstraction relation: `b` is the buffer state after `m` pushes. -/
def HistoryBuffer.Tracks (b : HistoryBuffer) (m : Nat) : Prop :=
  b.writeIndex = m % 90 ∧ b.filled = decide (90 ≤ m)

/-- Concrete input used to witness C1: ninety pushes of the sample 1. -/
def c1Input : List ℚ := List.replicate 90 1

/-! ## WMI value conversion (PerformanceMonitor.cpp lines 191-239) -/

/-- Whitespace characters skipped by the CRT conversion `_wtol`. -/
def isWtolSpace (c : Char) : Bool :=
  c = ' ' || c = '\t' || c = '\n' || c = '\x0b' || c = '\x0c' || c = '\r'

/-- ASCII decimal digit test. -/
def isAsciiDigit (c : Char) : Bool :=
  '0' ≤ c && c ≤ '9'

/-- Value of the longest digit prefix of a character list, given an
accumulator; stops at the first non-digit. -/
def digitsPrefixVal : List Char → Nat → Nat
  | [], acc => acc
  | c :: cs, acc =>
      if isAsciiDigit c then digitsPrefixVal cs (acc * 10 + (c.toNat - 48))
      else acc

/-- CRT `_wtol`: skips leading whitespace, reads an optional sign and then
the longest digit prefix; yields 0 when no digit follows (also for
non-numeric text); the result is clamped to the 32-bit signed `long` range
on overflow. -/
def wtol (s : String) : Int :=
  let cs := s.data.dropWhile isWtolSpace
  let signed : Int :=
    match cs with
    | '-' :: rest => -(digitsPrefixVal rest 0 : Int)
    | '+' :: rest => (digitsPrefixVal rest 0 : Int)
    | rest => (digitsPrefixVal rest 0 : Int)
  max (-(2 ^ 31)) (min (2 ^ 31 - 1) signed)

/-- C cast from signed `long` to `ULONG`: reduction modulo 2^32. -/
def toULONG (i : Int) : Nat :=
  (i % (2 ^ 32 : Int)).toNat

/-- Unsigned 32-bit subtraction `a - b` as computed on `ULONG` operands. -/
def sub32 (a b : Nat) : Nat :=
  toULONG ((a : Int) - (b : Int))

/-- Shapes of the VARIANT payload relevant to `GetWmiPropertyValue`: a BSTR
string, a VT_I4 value (carried as its 32-bit bit pattern, read through the
`ulVal` union member), or any other variant type. -/
inductive Variant
  | bstrVal (s : String)
  | i4Val (bits : Nat)
  | otherVal
deriving DecidableEq

/-- Outcome of the single-property WMI interaction performed by
`GetWmiPropertyValue`: `ExecQuery` can fail, the enumerator can yield no
record, `Get` on the record can fail, or a property value of some variant
type is produced. -/
inductive PropOutcome
  | execQueryFailed
  | noRecord
  | getFailed
  | propValue (v : Variant)
deriving DecidableEq

/-- PerformanceMonitor.cpp lines 191-239, `GetWmiPropertyValue`: returns the
retrieved `ULONG` on success (`some`), `none` on failure.  A BSTR payload is
converted with `_wtol` and implicitly cast to `ULONG`; a VT_I4 payload is
read through `ulVal`; every other outcome leaves `success = false`. -/
def GetWmiPropertyValue : PropOutcome → Option Nat
  | .execQueryFailed => none
  | .noRecord => none
  | .getFailed => none
  | .propValue (.bstrVal s) => some (toULONG (wtol s))
  | .propValue (.i4Val bits) => some (bits % 2 ^ 32)
  | .propValue .otherVal => none

/-! ## The monitor object and its operations (PerformanceMonitor.cpp) -/

/-- The two BSTR fields of the `Win32_OperatingSystem` record read by the
memory branch of `Update` (the source reads `vtProp.bstrVal` directly for
both properties). -/
structure MemRecord where
  totalStr : String
  freeStr : String
deriving DecidableEq

/-- Outcome of the two-property memory query in `Update`. -/
inductive MemOutcome
  | execQueryFailed
  | noRecord
  | record (r : MemRecord)
deriving DecidableEq

/-- Observable lifecycle of a COM interface pointer member: still null,
valid (a reference is held), or dangling (the member was released but never
reset to null, so null tests still see it as non-null). -/
inductive Ptr
  | null
  | valid
  | dangling
deriving DecidableEq

/-- State of a `PerformanceMonitor` object, together with the per-thread COM
library initialisation count its calls manipulate and a flag recording
whether `Release` was ever invoked through a dangling member pointer (a
double release, undefined behaviour in the C++ source). -/
structure PerformanceMonitor where
  pLocator : Ptr
  pServices : Ptr
  cpuLoad : ℚ
  memoryUsage : ℚ
  diskUsage : ℚ
  comInitCount : Nat
  releasedDangling : Bool
deriving DecidableEq

/-- Constructor (lines 11-18): members null, percentages 0; combined with a
fresh thread state (COM count 0, no double release yet). -/
def PerformanceMonitor.mk0 : PerformanceMonitor :=
  ⟨Ptr.null, Ptr.null, 0, 0, 0, 0, false⟩

/-- Success or failure of each external call in the `Initialize` chain. -/
structure InitEnv where
  coInitOk : Bool
  coSecOk : Bool
  locatorOk : Bool
  connectOk : Bool
  proxyOk : Bool
deriving DecidableEq

/-- The five external setup calls performed by `Initialize`, in source
order. -/
inductive InitStep
  | coInitializeEx
  | coInitializeSecurity
  | coCreateInstance
  | connectServer
  | coSetProxyBlanket
deriving DecidableEq

/-- The full setup chain in the order the source performs it. -/
def initChain : List InitStep :=
  [.coInitializeEx, .coInitializeSecurity, .coCreateInstance,
   .connectServer, .coSetProxyBlanket]

/-- CoUninitialize: decrements the per-thread COM initialisation count; a
call with no matching initialisation is ignored (truncated subtraction). -/
def coUninit (n : Nat) : Nat := n - 1

/-- PerformanceMonitor.cpp lines 24-106, `Initialize`.  Returns the C++
return value, the post state, and the ordered list of external setup calls
that were attempted.  Mirrors every early-return cleanup branch of the
source, including that the members released in the step-4/step-5 failure
branches are left dangling (released but not set back to null). -/
def initializeMonitor (env : InitEnv) (s : PerformanceMonitor) :
    Bool × PerformanceMonitor × List InitStep :=
  if !env.coInitOk then
    (false, s, [.coInitializeEx])
  else
    let s1 := { s with comInitCount := s.comInitCount + 1 }
    if !env.coSecOk then
      (false, { s1 with comInitCount := coUninit s1.comInitCount },
        [.coInitializeEx, .coInitializeSecurity])
    else if !env.locatorOk then
      (false, { s1 with comInitCount := coUninit s1.comInitCount },
        [.coInitializeEx, .coInitializeSecurity, .coCreateInstance])
    else
      let s2 := { s1 with pLocator := Ptr.valid }
      if !env.connectOk then
        (false, { s2 with pLocator := Ptr.dangling,
                          comInitCount := coUninit s2.comInitCount },
          [.coInitializeEx, .coInitializeSecurity, .coCreateInstance,
           .connectServer])
      else
        let s3 := { s2 with pServices := Ptr.valid }
        if !env.proxyOk then
          (false, { s3 with pServices := Ptr.dangling,
                            pLocator := Ptr.dangling,
                            comInitCount := coUninit s3.comInitCount },
            initChain)
        else
          (true, s3, initChain)

/-- PerformanceMonitor.cpp lines 108-123, `Shutdown`: releases and nulls
each member pointer that tests non-null, then calls `CoUninitialize`.
Releasing a dangling member (possible after a failed `Initialize`) is a
double release and sets the `releasedDangling` flag. -/
def shutdownMonitor (s : PerformanceMonitor) : PerformanceMonitor :=
  let s1 :=
    if s.pServices ≠ Ptr.null then
      { s with pServices := Ptr.null,
               releasedDangling :=
                 s.releasedDangling || decide (s.pServices = Ptr.dangling) }
    else s
  let s2 :=
    if s1.pLocator ≠ Ptr.null then
      { s1 with pLocator := Ptr.null,
                releasedDangling :=
                  s1.releasedDangling || decide (s1.pLocator = Ptr.dangling) }
    else s1
  { s2 with comInitCount := coUninit s2.comInitCount }

/-- Outcomes of the three WMI interactions of one `Update` cycle. -/
structure UpdateEnv where
  cpuQ : PropOutcome
  memQ : MemOutcome
  diskQ : PropOutcome
deriving DecidableEq

/-- PerformanceMonitor.cpp lines 125-188, `Update`: early return when
`m_pServices` is null; otherwise the CPU, memory and disk branches each
update their own field exactly when their own query chain succeeds.  The
memory percentage `(total - free) / total * 100` is computed on `ULONG`
operands (so the subtraction wraps modulo 2^32) and is guarded by
`totalMemory > 0`; the float arithmetic is idealised to exact rationals. -/
def updateMonitor (env : UpdateEnv) (s : PerformanceMonitor) :
    PerformanceMonitor :=
  if s.pServices = Ptr.null then s
  else
    let s1 := match GetWmiPropertyValue env.cpuQ with
      | some v => { s with cpuLoad := (v : ℚ) }
      | none => s
    let s2 := match env.memQ with
      | .record r =>
          let totalMemory := toULONG (wtol r.totalStr)
          let freeMemory := toULONG (wtol r.freeStr)
          if 0 < totalMemory then
            { s1 with memoryUsage :=
                ((sub32 totalMemory freeMemory : ℚ) / (totalMemory : ℚ))
                  * 100 }
          else s1
      | _ => s1
    match GetWmiPropertyValue env.diskQ with
      | some v => { s2 with diskUsage := (v : ℚ) }
      | none => s2

/-- The percentage the memory branch stores for a record `r`:
`(float)(totalMemory - freeMemory) / (float)totalMemory * 100.0f` on the
`ULONG` conversions of the two BSTR fields. -/
def memPercent (r : MemRecord) : ℚ :=
  ((sub32 (toULONG (wtol r.totalStr)) (toULONG (wtol r.freeStr)) : ℚ) /
    (toULONG (wtol r.totalStr) : ℚ)) * 100

/-- The memory branch performs no assignment this cycle: the query failed,
yielded no record, or the record reports a zero total. -/
def memUpdateSkipped (m : MemOutcome) : Prop :=
  ∀ r, m = MemOutcome.record r → toULONG (wtol r.totalStr) = 0

/-- Modelled from the specification's words (section 6): a textual numeric
encoding is a string that is, after optional leading whitespace and an
optional sign, a non-empty digit sequence.  Used only to state C9 as the
specification phrases it; the source applies `_wtol` unconditionally. -/
def isNumericText (s : String) : Bool :=
  let cs := s.data.dropWhile isWtolSpace
  let ds := match cs with
    | '-' :: rest => rest
    | '+' :: rest => rest
    | rest => rest
  !ds.isEmpty && ds.all isAsciiDigit

/-- The state of the monitor after a fully successful `Initialize` on the
fresh object. -/
def connectedMonitor : PerformanceMonitor :=
  (initializeMonitor ⟨true, true, true, true, true⟩ PerformanceMonitor.mk0).2.1

/-- Monitor states reachable in the program: the object is constructed
fresh, `Initialize` runs once on the fresh object (as `Gui::Initialize`
does), and arbitrary sequences of `Update` and `Shutdown` calls follow. -/
inductive Reachable : PerformanceMonitor → Prop
  | mk0 : Reachable PerformanceMonitor.mk0
  | init (env : InitEnv) :
      Reachable (initializeMonitor env PerformanceMonitor.mk0).2.1
  | update (env : UpdateEnv) {s : PerformanceMonitor} (h : Reachable s) :
      Reachable (updateMonitor env s)
  | shutdown {s : PerformanceMonitor} (h : Reachable s) :
      Reachable (shutdownMonitor s)

/-- Environment used for the C8 counterexample: the CPU query reports the
VT_I4 value 250, the other queries fail. -/
def c8Env : UpdateEnv :=
  ⟨PropOutcome.propValue (Variant.i4Val 250), MemOutcome.noRecord,
   PropOutcome.noRecord⟩

theorem HistoryBuffer.wf_emptyBuf : HistoryBuffer.WF HistoryBuffer.emptyBuf := by
  constructor <;> simp [HistoryBuffer.emptyBuf]

theorem HistoryBuffer.wf_push {b : HistoryBuffer} (h : b.WF) (v : ℚ) :
    (b.push v).WF := by
  obtain ⟨hl, hi⟩ := h
  refine ⟨?_, ?_⟩
  · simp [HistoryBuffer.push, hl]
  · exact Nat.mod_lt _ (by omega)

theorem HistoryBuffer.content_length {b : HistoryBuffer} (h : b.WF) :
    b.content.length = 90 := by
  obtain ⟨hl, hi⟩ := h
  simp [HistoryBuffer.content, hl]
  omega

/-- Pushing acts on the chronological rotation as a queue step: the oldest
sample is dropped and the new sample is appended. -/
theorem HistoryBuffer.content_push {b : HistoryBuffer} (h : b.WF) (v : ℚ) :
    (b.push v).content = b.content.drop 1 ++ [v] := by
  rcases b with ⟨S, w, f⟩
  simp only [HistoryBuffer.WF] at h
  obtain ⟨hl, hi⟩ := h
  have hset : S.set w v = S.take w ++ v :: S.drop (w + 1) :=
    List.set_eq_take_cons_drop v (by omega)
  have hlt : (S.take w).length = w := by simp [hl]; omega
  have hld : (S.drop w).length = 90 - w := by simp [hl]
  simp only [HistoryBuffer.content, HistoryBuffer.push]
  by_cases h89 : w = 89
  · subst h89
    have h90 : S.drop 90 = [] := by
      apply List.drop_eq_nil_of_le; omega
    simp [hset, h90, List.drop_append_eq_append_drop, List.drop_drop, hld, hlt]
  · have hmod : (w + 1) % 90 = w + 1 := by omega
    have h10 : 1 - (90 - w) = 0 := by omega
    have htk : (S.take w).take (w + 1) = S.take w := by
      apply List.take_of_length_le; omega
    have hdr : (S.take w).drop (w + 1) = [] := by
      apply List.drop_eq_nil_of_le; omega
    simp [hset, hmod, List.drop_append_eq_append_drop,
      List.take_append_eq_append_take, List.drop_drop, hld, hlt, h10, htk, hdr]

theorem HistoryBuffer.wf_pushAll {b : HistoryBuffer} (h : b.WF) (xs : List ℚ) :
    (b.pushAll xs).WF := by
  induction xs generalizing b with
  | nil => exact h
  | cons x xs ih => exact ih (HistoryBuffer.wf_push h x)

/-- Iterating the queue step: after pushing `xs`, the chronological rotation
is the old rotation followed by `xs`, with the oldest `xs.length` samples
dropped from the front. -/
theorem HistoryBuffer.content_pushAll {b : HistoryBuffer} (h : b.WF)
    (xs : List ℚ) :
    (b.pushAll xs).content = (b.content ++ xs).drop xs.length := by
  induction xs generalizing b with
  | nil => simp [HistoryBuffer.pushAll]
  | cons x xs ih =>
    have hwf := HistoryBuffer.wf_push h x
    have h1 : b.pushAll (x :: xs) = (b.push x).pushAll xs := rfl
    rw [h1, ih hwf, HistoryBuffer.content_push h x]
    have hcl : b.content.length = 90 := HistoryBuffer.content_length h
    obtain ⟨c, rest, hc⟩ : ∃ c rest, b.content = c :: rest := by
      cases hcb : b.content with
      | nil => rw [hcb] at hcl; simp at hcl
      | cons c rest => exact ⟨c, rest, rfl⟩
    rw [hc]
    simp

theorem HistoryBuffer.tracks_emptyBuf : HistoryBuffer.emptyBuf.Tracks 0 :=
  ⟨rfl, rfl⟩

theorem HistoryBuffer.tracks_push {b : HistoryBuffer} {m : Nat}
    (h : b.Tracks m) (v : ℚ) : (b.push v).Tracks (m + 1) := by
  obtain ⟨hw, hf⟩ := h
  refine ⟨?_, ?_⟩
  · simp only [HistoryBuffer.push, hw]; omega
  · simp only [HistoryBuffer.push, hw, hf]
    rcases em (m % 90 = 89) with h89 | h89
    · rw [if_pos h89]
      have h1 : 90 ≤ m + 1 := by omega
      simp [h1]
    · rw [if_neg h89]
      exact decide_eq_decide.mpr (by omega)

theorem HistoryBuffer.tracks_pushAll {b : HistoryBuffer} {m : Nat}
    (h : b.Tracks m) (xs : List ℚ) :
    (b.pushAll xs).Tracks (m + xs.length) := by
  induction xs generalizing b m with
  | nil => simpa using h
  | cons x xs ih =>
    have h2 := ih (HistoryBuffer.tracks_push h x)
    have h3 : m + 1 + xs.length = m + (x :: xs).length := by simp; omega
    rw [h3] at h2
    exact h2

theorem HistoryBuffer.snapshot_of_filled {b : HistoryBuffer}
    (hf : b.filled = true) : b.snapshotOrdered = b.content := by
  simp [HistoryBuffer.snapshotOrdered, HistoryBuffer.content, hf]

/-- C1: for every sequence of `N + k` pushes (`k ≥ 0`, `N = 90`) into the
fresh history buffer, the displayed snapshot has length `min (N + k) N`, is
the chronological (oldest first) suffix of the pushed sequence, its last
element is the most recently pushed value, the buffer is filled, and the
snapshot is exactly the full `N`-length rotation of the storage starting at
the write index.  (With `k ≥ 0` pushes beyond capacity the buffer is filled,
so the pre-fill branch of the snapshot is not exercised.) -/
theorem C1_snapshotOrdered_after_fill (xs : List ℚ) (hk : 90 ≤ xs.length) :
    (HistoryBuffer.emptyBuf.pushAll xs).snapshotOrdered.length
        = min xs.length 90 ∧
    (HistoryBuffer.emptyBuf.pushAll xs).snapshotOrdered
        = xs.drop (xs.length - 90) ∧
    (HistoryBuffer.emptyBuf.pushAll xs).snapshotOrdered.getLast?
        = xs.getLast? ∧
    (HistoryBuffer.emptyBuf.pushAll xs).filled = true ∧
    (HistoryBuffer.emptyBuf.pushAll xs).snapshotOrdered
        = (HistoryBuffer.emptyBuf.pushAll xs).storage.drop
            (HistoryBuffer.emptyBuf.pushAll xs).writeIndex ++
          (HistoryBuffer.emptyBuf.pushAll xs).storage.take
            (HistoryBuffer.emptyBuf.pushAll xs).writeIndex := by
  have hwf := HistoryBuffer.wf_pushAll HistoryBuffer.wf_emptyBuf xs
  have htr := HistoryBuffer.tracks_pushAll HistoryBuffer.tracks_emptyBuf xs
  have hfill : (HistoryBuffer.emptyBuf.pushAll xs).filled = true := by
    rcases htr with ⟨_, hf⟩
    rw [hf]
    simp
    omega
  have hcontent := HistoryBuffer.content_pushAll HistoryBuffer.wf_emptyBuf xs
  have hce : HistoryBuffer.emptyBuf.content = List.replicate 90 (0 : ℚ) := by
    simp [HistoryBuffer.content, HistoryBuffer.emptyBuf]
  have hsnap : (HistoryBuffer.emptyBuf.pushAll xs).snapshotOrdered
      = xs.drop (xs.length - 90) := by
    rw [HistoryBuffer.snapshot_of_filled hfill, hcontent, hce,
      List.drop_append_eq_append_drop]
    have hrep : (List.replicate 90 (0 : ℚ)).drop xs.length = [] := by
      apply List.drop_eq_nil_of_le
      simp
      omega
    rw [hrep]
    simp
  refine ⟨?_, hsnap, ?_, hfill, HistoryBuffer.snapshot_of_filled hfill⟩
  · rw [hsnap]
    simp
    omega
  · rw [hsnap]
    have hne : xs.drop (xs.length - 90) ≠ [] := by
      intro hnil
      have hlen := congrArg List.length hnil
      simp at hlen
      omega
    conv_rhs => rw [← List.take_append_drop (xs.length - 90) xs]
    rw [List.getLast?_append_of_ne_nil _ hne]

/-- Witness for C1 at a concrete sequence of exactly 90 pushes. -/
theorem C1_snapshotOrdered_after_fill_witness :
    90 ≤ c1Input.length ∧
    ((HistoryBuffer.emptyBuf.pushAll c1Input).snapshotOrdered.length
        = min c1Input.length 90 ∧
    (HistoryBuffer.emptyBuf.pushAll c1Input).snapshotOrdered
        = c1Input.drop (c1Input.length - 90) ∧
    (HistoryBuffer.emptyBuf.pushAll c1Input).snapshotOrdered.getLast?
        = c1Input.getLast? ∧
    (HistoryBuffer.emptyBuf.pushAll c1Input).filled = true ∧
    (HistoryBuffer.emptyBuf.pushAll c1Input).snapshotOrdered
        = (HistoryBuffer.emptyBuf.pushAll c1Input).storage.drop
            (HistoryBuffer.emptyBuf.pushAll c1Input).writeIndex ++
          (HistoryBuffer.emptyBuf.pushAll c1Input).storage.take
            (HistoryBuffer.emptyBuf.pushAll c1Input).writeIndex) :=
  ⟨by simp [c1Input], C1_snapshotOrdered_after_fill c1Input (by simp [c1Input])⟩

/-- C5: each push writes the value at the current write index and then
advances the write index to `(writeIndex + 1) mod 90`; the write index stays
in `[0, 90)` after every operation; and from the fresh buffer the filled
flag is true exactly once at least 90 pushes have happened, i.e. it becomes
true at the 90th push, when the write index first wraps past 0. -/
theorem C5_push_invariants (xs : List ℚ) (v : ℚ) :
    ((HistoryBuffer.emptyBuf.pushAll xs).push v).storage
        = (HistoryBuffer.emptyBuf.pushAll xs).storage.set
            (HistoryBuffer.emptyBuf.pushAll xs).writeIndex v ∧
    ((HistoryBuffer.emptyBuf.pushAll xs).push v).writeIndex
        = ((HistoryBuffer.emptyBuf.pushAll xs).writeIndex + 1) % 90 ∧
    (HistoryBuffer.emptyBuf.pushAll xs).writeIndex < 90 ∧
    ((HistoryBuffer.emptyBuf.pushAll xs).push v).writeIndex < 90 ∧
    ((HistoryBuffer.emptyBuf.pushAll xs).filled = true ↔ 90 ≤ xs.length) := by
  have hwf := HistoryBuffer.wf_pushAll HistoryBuffer.wf_emptyBuf xs
  have htr := HistoryBuffer.tracks_pushAll HistoryBuffer.tracks_emptyBuf xs
  refine ⟨rfl, rfl, hwf.2, (HistoryBuffer.wf_push hwf v).2, ?_⟩
  rcases htr with ⟨_, hf⟩
  rw [hf]
  simp

/-- Field-level description of one `Update` cycle on a connected monitor:
the non-metric fields are unchanged and each metric field is governed
solely by its own query's outcome. -/
theorem updateMonitor_fields (env : UpdateEnv) (s : PerformanceMonitor)
    (h : ¬ s.pServices = Ptr.null) :
    (updateMonitor env s).pLocator = s.pLocator ∧
    (updateMonitor env s).pServices = s.pServices ∧
    (updateMonitor env s).comInitCount = s.comInitCount ∧
    (updateMonitor env s).releasedDangling = s.releasedDangling ∧
    (updateMonitor env s).cpuLoad
        = (match GetWmiPropertyValue env.cpuQ with
           | some v => (v : ℚ)
           | none => s.cpuLoad) ∧
    (updateMonitor env s).memoryUsage
        = (match env.memQ with
           | MemOutcome.record r =>
               if 0 < toULONG (wtol r.totalStr) then memPercent r
               else s.memoryUsage
           | _ => s.memoryUsage) ∧
    (updateMonitor env s).diskUsage
        = (match GetWmiPropertyValue env.diskQ with
           | some v => (v : ℚ)
           | none => s.diskUsage) := by
  rcases hcq : GetWmiPropertyValue env.cpuQ with _ | cv <;>
    rcases hdq : GetWmiPropertyValue env.diskQ with _ | dv <;>
      rcases hmq : env.memQ with _ | _ | r <;>
        simp [updateMonitor, memPercent, h, hcq, hdq, hmq] <;>
          split_ifs <;> simp

theorem updateMonitor_null {s : PerformanceMonitor}
    (h : s.pServices = Ptr.null) (env : UpdateEnv) :
    updateMonitor env s = s := by
  simp [updateMonitor, h]

theorem shutdownMonitor_values (s : PerformanceMonitor) :
    (shutdownMonitor s).cpuLoad = s.cpuLoad ∧
    (shutdownMonitor s).memoryUsage = s.memoryUsage ∧
    (shutdownMonitor s).diskUsage = s.diskUsage := by
  simp only [shutdownMonitor]
  split_ifs <;> simp

theorem initializeMonitor_values (env : InitEnv) (s : PerformanceMonitor) :
    (initializeMonitor env s).2.1.cpuLoad = s.cpuLoad ∧
    (initializeMonitor env s).2.1.memoryUsage = s.memoryUsage ∧
    (initializeMonitor env s).2.1.diskUsage = s.diskUsage := by
  rcases env with ⟨a, b, c, d, e⟩
  cases a <;> cases b <;> cases c <;> cases d <;> cases e <;>
    simp [initializeMonitor]

theorem memPercent_nonneg (r : MemRecord) : 0 ≤ memPercent r := by
  unfold memPercent
  positivity

theorem updateMonitor_nonneg {s : PerformanceMonitor}
    (h : 0 ≤ s.cpuLoad ∧ 0 ≤ s.memoryUsage ∧ 0 ≤ s.diskUsage)
    (env : UpdateEnv) :
    0 ≤ (updateMonitor env s).cpuLoad ∧
    0 ≤ (updateMonitor env s).memoryUsage ∧
    0 ≤ (updateMonitor env s).diskUsage := by
  by_cases hn : s.pServices = Ptr.null
  · rw [updateMonitor_null hn]
    exact h
  · obtain ⟨_, _, _, _, hcpu, hmem, hdisk⟩ := updateMonitor_fields env s hn
    refine ⟨?_, ?_, ?_⟩
    · rw [hcpu]
      rcases hcq : GetWmiPropertyValue env.cpuQ with _ | v
      · exact h.1
      · exact Nat.cast_nonneg v
    · rw [hmem]
      rcases hmq : env.memQ with _ | _ | r
      · exact h.2.1
      · exact h.2.1
      · dsimp only
        split_ifs
        · exact memPercent_nonneg r
        · exact h.2.1
    · rw [hdisk]
      rcases hdq : GetWmiPropertyValue env.diskQ with _ | v
      · exact h.2.2
      · exact Nat.cast_nonneg v

/-- C2: per-metric failure isolation during one `Update` cycle on a
connected monitor.  If the disk query fails its field keeps the prior
value while successful CPU and memory queries still store their new
values; symmetrically, each metric field is updated exactly when its own
query chain succeeds and is untouched when it fails, independently of the
other metrics. -/
theorem C2_partial_failure_isolation (env : UpdateEnv)
    (s : PerformanceMonitor) (h : s.pServices = Ptr.valid) :
    (GetWmiPropertyValue env.cpuQ = none →
      (updateMonitor env s).cpuLoad = s.cpuLoad) ∧
    (∀ v, GetWmiPropertyValue env.cpuQ = some v →
      (updateMonitor env s).cpuLoad = (v : ℚ)) ∧
    (memUpdateSkipped env.memQ →
      (updateMonitor env s).memoryUsage = s.memoryUsage) ∧
    (∀ r, env.memQ = MemOutcome.record r → 0 < toULONG (wtol r.totalStr) →
      (updateMonitor env s).memoryUsage = memPercent r) ∧
    (GetWmiPropertyValue env.diskQ = none →
      (updateMonitor env s).diskUsage = s.diskUsage) ∧
    (∀ v, GetWmiPropertyValue env.diskQ = some v →
      (updateMonitor env s).diskUsage = (v : ℚ)) := by
  have hn : ¬ s.pServices = Ptr.null := by simp [h]
  obtain ⟨_, _, _, _, hcpu, hmem, hdisk⟩ := updateMonitor_fields env s hn
  refine ⟨?_, ?_, ?_, ?_, ?_, ?_⟩
  · intro hc
    rw [hcpu, hc]
  · intro v hc
    rw [hcpu, hc]
  · intro hskip
    rw [hmem]
    rcases hmq : env.memQ with _ | _ | r
    · rfl
    · rfl
    · simp [hmq, hskip r hmq]
  · intro r hmq hpos
    rw [hmem]
    simp [hmq, hpos]
  · intro hd
    rw [hdisk, hd]
  · intro v hd
    rw [hdisk, hd]

/-- Witness for C2: a connected monitor whose CPU query yields 37, whose
memory query reports total 100 and free 25, and whose disk query fails. -/
theorem C2_partial_failure_isolation_witness :
    connectedMonitor.pServices = Ptr.valid ∧
    ((GetWmiPropertyValue (UpdateEnv.mk (PropOutcome.propValue (Variant.i4Val 37))
          (MemOutcome.record ⟨"100", "25"⟩) PropOutcome.execQueryFailed).cpuQ = none →
      (updateMonitor (UpdateEnv.mk (PropOutcome.propValue (Variant.i4Val 37))
          (MemOutcome.record ⟨"100", "25"⟩) PropOutcome.execQueryFailed)
        connectedMonitor).cpuLoad = connectedMonitor.cpuLoad) ∧
    (∀ v, GetWmiPropertyValue (UpdateEnv.mk (PropOutcome.propValue (Variant.i4Val 37))
          (MemOutcome.record ⟨"100", "25"⟩) PropOutcome.execQueryFailed).cpuQ = some v →
      (updateMonitor (UpdateEnv.mk (PropOutcome.propValue (Variant.i4Val 37))
          (MemOutcome.record ⟨"100", "25"⟩) PropOutcome.execQueryFailed)
        connectedMonitor).cpuLoad = (v : ℚ)) ∧
    (memUpdateSkipped (UpdateEnv.mk (PropOutcome.propValue (Variant.i4Val 37))
          (MemOutcome.record ⟨"100", "25"⟩) PropOutcome.execQueryFailed).memQ →
      (updateMonitor (UpdateEnv.mk (PropOutcome.propValue (Variant.i4Val 37))
          (MemOutcome.record ⟨"100", "25"⟩) PropOutcome.execQueryFailed)
        connectedMonitor).memoryUsage = connectedMonitor.memoryUsage) ∧
    (∀ r, (UpdateEnv.mk (PropOutcome.propValue (Variant.i4Val 37))
          (MemOutcome.record ⟨"100", "25"⟩) PropOutcome.execQueryFailed).memQ
            = MemOutcome.record r → 0 < toULONG (wtol r.totalStr) →
      (updateMonitor (UpdateEnv.mk (PropOutcome.propValue (Variant.i4Val 37))
          (MemOutcome.record ⟨"100", "25"⟩) PropOutcome.execQueryFailed)
        connectedMonitor).memoryUsage = memPercent r) ∧
    (GetWmiPropertyValue (UpdateEnv.mk (PropOutcome.propValue (Variant.i4Val 37))
          (MemOutcome.record ⟨"100", "25"⟩) PropOutcome.execQueryFailed).diskQ = none →
      (updateMonitor (UpdateEnv.mk (PropOutcome.propValue (Variant.i4Val 37))
          (MemOutcome.record ⟨"100", "25"⟩) PropOutcome.execQueryFailed)
        connectedMonitor).diskUsage = connectedMonitor.diskUsage) ∧
    (∀ v, GetWmiPropertyValue (UpdateEnv.mk (PropOutcome.propValue (Variant.i4Val 37))
          (MemOutcome.record ⟨"100", "25"⟩) PropOutcome.execQueryFailed).diskQ = some v →
      (updateMonitor (UpdateEnv.mk (PropOutcome.propValue (Variant.i4Val 37))
          (MemOutcome.record ⟨"100", "25"⟩) PropOutcome.execQueryFailed)
        connectedMonitor).diskUsage = (v : ℚ))) :=
  ⟨by decide,
   C2_partial_failure_isolation
     (UpdateEnv.mk (PropOutcome.propValue (Variant.i4Val 37))
       (MemOutcome.record ⟨"100", "25"⟩) PropOutcome.execQueryFailed)
     connectedMonitor (by decide)⟩

/-- C4: `Update` called while the service pointer is null (the monitor is
not connected) returns immediately and changes nothing: the whole state,
in particular every metric value, is unchanged.  The history buffer lives
in the GUI layer and is not touched by `Update` at all, so it is also
unchanged by the call. -/
theorem C4_update_not_connected_noop (env : UpdateEnv)
    (s : PerformanceMonitor) (h : s.pServices = Ptr.null) :
    updateMonitor env s = s := by
  simp [updateMonitor, h]

/-- Witness for C4 on the freshly constructed monitor. -/
theorem C4_update_not_connected_noop_witness :
    PerformanceMonitor.mk0.pServices = Ptr.null ∧
    updateMonitor
        (UpdateEnv.mk (PropOutcome.propValue (Variant.i4Val 37))
          (MemOutcome.record ⟨"100", "25"⟩) (PropOutcome.propValue (Variant.i4Val 3)))
        PerformanceMonitor.mk0 = PerformanceMonitor.mk0 :=
  ⟨rfl,
   C4_update_not_connected_noop
     (UpdateEnv.mk (PropOutcome.propValue (Variant.i4Val 37))
       (MemOutcome.record ⟨"100", "25"⟩) (PropOutcome.propValue (Variant.i4Val 3)))
     PerformanceMonitor.mk0 rfl⟩

/-- C6: when the memory query yields a record whose TotalVisibleMemorySize
converts to 0, the `totalMemory > 0` guard skips the assignment, so the
memory value is unchanged by that cycle, for any monitor state and any
outcomes of the other queries. -/
theorem C6_zero_total_memory_guard (env : UpdateEnv)
    (s : PerformanceMonitor) (r : MemRecord)
    (hr : env.memQ = MemOutcome.record r)
    (h0 : toULONG (wtol r.totalStr) = 0) :
    (updateMonitor env s).memoryUsage = s.memoryUsage := by
  by_cases hn : s.pServices = Ptr.null
  · rw [updateMonitor_null hn]
  · obtain ⟨_, _, _, _, _, hmem, _⟩ := updateMonitor_fields env s hn
    rw [hmem]
    simp [hr, h0]

/-- Witness for C6: a connected monitor receiving a memory record with a
zero total. -/
theorem C6_zero_total_memory_guard_witness :
    (UpdateEnv.mk (PropOutcome.propValue (Variant.i4Val 37))
        (MemOutcome.record ⟨"0", "5"⟩) PropOutcome.noRecord).memQ
      = MemOutcome.record ⟨"0", "5"⟩ ∧
    toULONG (wtol (⟨"0", "5"⟩ : MemRecord).totalStr) = 0 ∧
    (updateMonitor
        (UpdateEnv.mk (PropOutcome.propValue (Variant.i4Val 37))
          (MemOutcome.record ⟨"0", "5"⟩) PropOutcome.noRecord)
        connectedMonitor).memoryUsage = connectedMonitor.memoryUsage :=
  ⟨rfl, by decide,
   C6_zero_total_memory_guard
     (UpdateEnv.mk (PropOutcome.propValue (Variant.i4Val 37))
       (MemOutcome.record ⟨"0", "5"⟩) PropOutcome.noRecord)
     connectedMonitor ⟨"0", "5"⟩ rfl (by decide)⟩

theorem updateMonitor_cpu_unchanged {env : UpdateEnv}
    {s : PerformanceMonitor} (hc : GetWmiPropertyValue env.cpuQ = none) :
    (updateMonitor env s).cpuLoad = s.cpuLoad := by
  by_cases hn : s.pServices = Ptr.null
  · rw [updateMonitor_null hn]
  · rw [(updateMonitor_fields env s hn).2.2.2.2.1, hc]

theorem updateMonitor_mem_unchanged {env : UpdateEnv}
    {s : PerformanceMonitor} (hm : memUpdateSkipped env.memQ) :
    (updateMonitor env s).memoryUsage = s.memoryUsage := by
  by_cases hn : s.pServices = Ptr.null
  · rw [updateMonitor_null hn]
  · rw [(updateMonitor_fields env s hn).2.2.2.2.2.1]
    rcases hmq : env.memQ with _ | _ | r
    · rfl
    · rfl
    · simp [hmq, hm r hmq]

theorem updateMonitor_disk_unchanged {env : UpdateEnv}
    {s : PerformanceMonitor} (hd : GetWmiPropertyValue env.diskQ = none) :
    (updateMonitor env s).diskUsage = s.diskUsage := by
  by_cases hn : s.pServices = Ptr.null
  · rw [updateMonitor_null hn]
  · rw [(updateMonitor_fields env s hn).2.2.2.2.2.2, hd]

/-- C3: Initialize attempts the external setup calls in the fixed source
order (its attempted-call trace is always a prefix of the five-step chain,
and success occurs exactly when all five steps succeed), and whenever it
fails it returns with no provider handle owned and the COM initialisation
count balanced back to zero, so a failed Initialize leaks no partial
resources. -/
theorem C3_initialize_ordered_atomic (env : InitEnv) :
    (initializeMonitor env PerformanceMonitor.mk0).2.2
        = initChain.take
            (initializeMonitor env PerformanceMonitor.mk0).2.2.length ∧
    ((initializeMonitor env PerformanceMonitor.mk0).1
        = (env.coInitOk && env.coSecOk && env.locatorOk && env.connectOk
            && env.proxyOk)) ∧
    ((initializeMonitor env PerformanceMonitor.mk0).1 = true →
      (initializeMonitor env PerformanceMonitor.mk0).2.2 = initChain) ∧
    ((initializeMonitor env PerformanceMonitor.mk0).1 = false →
      (initializeMonitor env PerformanceMonitor.mk0).2.1.pLocator
          ≠ Ptr.valid ∧
      (initializeMonitor env PerformanceMonitor.mk0).2.1.pServices
          ≠ Ptr.valid ∧
      (initializeMonitor env PerformanceMonitor.mk0).2.1.comInitCount
          = 0) := by
  rcases env with ⟨a, b, c, d, e⟩
  cases a <;> cases b <;> cases c <;> cases d <;> cases e <;> decide

/-- Witness for C3 at the spec's own scenario: failure at the
locator-acquisition step. -/
theorem C3_initialize_ordered_atomic_witness :
    (initializeMonitor ⟨true, true, false, true, true⟩
        PerformanceMonitor.mk0).1 = false ∧
    ((initializeMonitor ⟨true, true, false, true, true⟩
        PerformanceMonitor.mk0).2.1.pLocator ≠ Ptr.valid ∧
     (initializeMonitor ⟨true, true, false, true, true⟩
        PerformanceMonitor.mk0).2.1.pServices ≠ Ptr.valid ∧
     (initializeMonitor ⟨true, true, false, true, true⟩
        PerformanceMonitor.mk0).2.1.comInitCount = 0) :=
  ⟨by decide,
   (C3_initialize_ordered_atomic ⟨true, true, false, true, true⟩).2.2.2
     (by decide)⟩

/-- C7: evaluation of the failing scenario.  When Initialize fails at the
service-connection step (the first three calls succeed), the locator member
is released but left non-null, so Initialize returns false with
`m_pLocator` dangling; the subsequent Shutdown call then passes its
null test and calls Release on the already-freed object (a double release),
and it changes the state, so Shutdown after this failed Initialize is not
the safe no-op the claim demands. -/
theorem C7_shutdown_after_failed_connect_releases_dangling :
    (initializeMonitor ⟨true, true, true, false, true⟩
        PerformanceMonitor.mk0).1 = false ∧
    (initializeMonitor ⟨true, true, true, false, true⟩
        PerformanceMonitor.mk0).2.1.pLocator = Ptr.dangling ∧
    (shutdownMonitor (initializeMonitor ⟨true, true, true, false, true⟩
        PerformanceMonitor.mk0).2.1).releasedDangling = true ∧
    shutdownMonitor (initializeMonitor ⟨true, true, true, false, true⟩
        PerformanceMonitor.mk0).2.1
      ≠ (initializeMonitor ⟨true, true, true, false, true⟩
          PerformanceMonitor.mk0).2.1 := by
  decide

/-- C8 counterexample: the metric values are not clamped to [0,100].  After
a fully successful Initialize, one Update whose CPU query reports 250
reaches a state whose stored CPU value is 250, above 100 (the source
applies no clamp anywhere). -/
theorem C8_counterexample_no_upper_clamp :
    Reachable (updateMonitor c8Env connectedMonitor) ∧
    (updateMonitor c8Env connectedMonitor).cpuLoad = 250 ∧
    ¬ (updateMonitor c8Env connectedMonitor).cpuLoad ≤ 100 :=
  ⟨Reachable.update c8Env (Reachable.init ⟨true, true, true, true, true⟩),
   by decide, by decide⟩

/-- C8 amended: at every reachable state the three metric values are
nonnegative (but not clamped above by 100: see the counterexample); the
constructor starts all three at 0.0, so GetCurrentValue returns 0.0 before
the first successful sample; and each metric value is mutated only by a
successful query of its own metric: when its query chain fails this cycle,
the prior value is retained (never reset). -/
theorem C8_amended_nonneg_retention (s : PerformanceMonitor)
    (h : Reachable s) :
    0 ≤ s.cpuLoad ∧ 0 ≤ s.memoryUsage ∧ 0 ≤ s.diskUsage ∧
    PerformanceMonitor.mk0.cpuLoad = 0 ∧
    PerformanceMonitor.mk0.memoryUsage = 0 ∧
    PerformanceMonitor.mk0.diskUsage = 0 ∧
    (∀ env, GetWmiPropertyValue env.cpuQ = none →
      (updateMonitor env s).cpuLoad = s.cpuLoad) ∧
    (∀ env, memUpdateSkipped env.memQ →
      (updateMonitor env s).memoryUsage = s.memoryUsage) ∧
    (∀ env, GetWmiPropertyValue env.diskQ = none →
      (updateMonitor env s).diskUsage = s.diskUsage) := by
  have hnn : 0 ≤ s.cpuLoad ∧ 0 ≤ s.memoryUsage ∧ 0 ≤ s.diskUsage := by
    induction h with
    | mk0 => exact ⟨le_refl 0, le_refl 0, le_refl 0⟩
    | init env =>
        obtain ⟨h1, h2, h3⟩ :=
          initializeMonitor_values env PerformanceMonitor.mk0
        rw [h1, h2, h3]
        exact ⟨le_refl 0, le_refl 0, le_refl 0⟩
    | update env h ih => exact updateMonitor_nonneg ih env
    | shutdown h ih =>
        obtain ⟨h1, h2, h3⟩ := shutdownMonitor_values _
        rw [h1, h2, h3]
        exact ih
  exact ⟨hnn.1, hnn.2.1, hnn.2.2, rfl, rfl, rfl,
    fun env hc => updateMonitor_cpu_unchanged hc,
    fun env hm => updateMonitor_mem_unchanged hm,
    fun env hd => updateMonitor_disk_unchanged hd⟩

/-- Witness for the amended C8 at the freshly constructed state. -/
theorem C8_amended_nonneg_retention_witness :
    Reachable PerformanceMonitor.mk0 ∧
    (0 ≤ PerformanceMonitor.mk0.cpuLoad ∧
     0 ≤ PerformanceMonitor.mk0.memoryUsage ∧
     0 ≤ PerformanceMonitor.mk0.diskUsage ∧
     PerformanceMonitor.mk0.cpuLoad = 0 ∧
     PerformanceMonitor.mk0.memoryUsage = 0 ∧
     PerformanceMonitor.mk0.diskUsage = 0 ∧
     (∀ env, GetWmiPropertyValue env.cpuQ = none →
       (updateMonitor env PerformanceMonitor.mk0).cpuLoad
           = PerformanceMonitor.mk0.cpuLoad) ∧
     (∀ env, memUpdateSkipped env.memQ →
       (updateMonitor env PerformanceMonitor.mk0).memoryUsage
           = PerformanceMonitor.mk0.memoryUsage) ∧
     (∀ env, GetWmiPropertyValue env.diskQ = none →
       (updateMonitor env PerformanceMonitor.mk0).diskUsage
           = PerformanceMonitor.mk0.diskUsage)) :=
  ⟨Reachable.mk0,
   C8_amended_nonneg_retention PerformanceMonitor.mk0 Reachable.mk0⟩

/-- C9 counterexample: a record whose property is the non-numeric text
value N/A still succeeds: the source converts any BSTR with `_wtol`
(yielding 0 here) and sets `success = true`, contradicting the claim that
success occurs exactly for textual numeric encodings or native numeric
fields. -/
theorem C9_counterexample_nonnumeric_bstr :
    GetWmiPropertyValue (PropOutcome.propValue (Variant.bstrVal ("N/A")))
        = some 0 ∧
    isNumericText ("N/A") = false := by
  decide

/-- C9 amended: the single-property query succeeds exactly when the
property is any BSTR (its text converted with `_wtol`, which yields 0 for
non-numeric text) or a native VT_I4 field; a failed `ExecQuery`, a missing
record, a failed `Get`, or any other variant type yields failure, and on
failure the corresponding metric's value is unchanged for that cycle. -/
theorem C9_amended_success_shapes (o : PropOutcome) :
    ((GetWmiPropertyValue o).isSome = true ↔
      (∃ s, o = PropOutcome.propValue (Variant.bstrVal s)) ∨
      (∃ n, o = PropOutcome.propValue (Variant.i4Val n))) ∧
    (∀ s, GetWmiPropertyValue (PropOutcome.propValue (Variant.bstrVal s))
        = some (toULONG (wtol s))) ∧
    (∀ n, GetWmiPropertyValue (PropOutcome.propValue (Variant.i4Val n))
        = some (n % 2 ^ 32)) ∧
    (∀ env st, env.cpuQ = o → GetWmiPropertyValue o = none →
      (updateMonitor env st).cpuLoad = st.cpuLoad) ∧
    (∀ env st, env.diskQ = o → GetWmiPropertyValue o = none →
      (updateMonitor env st).diskUsage = st.diskUsage) := by
  refine ⟨?_, fun s => rfl, fun n => rfl, ?_, ?_⟩
  · rcases o with _ | _ | _ | v
    · simp [GetWmiPropertyValue]
    · simp [GetWmiPropertyValue]
    · simp [GetWmiPropertyValue]
    · rcases v with s | n | _ <;> simp [GetWmiPropertyValue]
  · intro env st he hc
    rw [← he] at hc
    exact updateMonitor_cpu_unchanged hc
  · intro env st he hd
    rw [← he] at hd
    exact updateMonitor_disk_unchanged hd

/-- Witness for the amended C9 at the no-record outcome on a connected
monitor. -/
theorem C9_amended_success_shapes_witness :
    GetWmiPropertyValue PropOutcome.noRecord = none ∧
    (updateMonitor
        (UpdateEnv.mk PropOutcome.noRecord MemOutcome.noRecord
          PropOutcome.noRecord)
        connectedMonitor).cpuLoad = connectedMonitor.cpuLoad :=
  ⟨rfl,
   (C9_amended_success_shapes PropOutcome.noRecord).2.2.2.1
     (UpdateEnv.mk PropOutcome.noRecord MemOutcome.noRecord
       PropOutcome.noRecord)
     connectedMonitor rfl rfl⟩

/-- C10: in the memory path both quantities are ULONG conversions, so when
free exceeds a positive total the subtraction wraps modulo 2^32: with
total 1 and free 2 the stored percentage is (2^32 - 1) * 100, far above
100; and the stored memory value is never negative. -/
theorem C10_memory_wraparound :
    toULONG (wtol ("1")) = 1 ∧ toULONG (wtol ("2")) = 2 ∧
    sub32 1 2 = 2 ^ 32 - 1 ∧
    (updateMonitor (UpdateEnv.mk PropOutcome.noRecord
        (MemOutcome.record ⟨"1", "2"⟩) PropOutcome.noRecord)
      connectedMonitor).memoryUsage = ((2 : ℚ) ^ 32 - 1) * 100 ∧
    (100 : ℚ) < (updateMonitor (UpdateEnv.mk PropOutcome.noRecord
        (MemOutcome.record ⟨"1", "2"⟩) PropOutcome.noRecord)
      connectedMonitor).memoryUsage ∧
    (∀ r : MemRecord, 0 ≤ memPercent r) ∧
    (∀ env s, 0 ≤ s.memoryUsage →
      0 ≤ (updateMonitor env s).memoryUsage) := by
  have hn : ¬ connectedMonitor.pServices = Ptr.null := by decide
  have hval : (updateMonitor (UpdateEnv.mk PropOutcome.noRecord
      (MemOutcome.record ⟨"1", "2"⟩) PropOutcome.noRecord)
      connectedMonitor).memoryUsage = ((2 : ℚ) ^ 32 - 1) * 100 := by
    obtain ⟨_, _, _, _, _, hmem, _⟩ :=
      updateMonitor_fields (UpdateEnv.mk PropOutcome.noRecord
        (MemOutcome.record ⟨"1", "2"⟩) PropOutcome.noRecord)
        connectedMonitor hn
    rw [hmem]
    have hpos : 0 < toULONG (wtol ("1")) := by decide
    dsimp only
    rw [if_pos hpos]
    simp only [memPercent]
    rw [show sub32 (toULONG (wtol ("1"))) (toULONG (wtol ("2"))) = 4294967295
          from by decide,
        show toULONG (wtol ("1")) = 1 from by decide]
    norm_num
  refine ⟨by decide, by decide, by decide, hval, ?_, memPercent_nonneg, ?_⟩
  · rw [hval]
    norm_num
  intro env s hs
  by_cases hn : s.pServices = Ptr.null
  · rw [updateMonitor_null hn]
    exact hs
  · obtain ⟨_, _, _, _, _, hmem, _⟩ := updateMonitor_fields env s hn
    rw [hmem]
    rcases hmq : env.memQ with _ | _ | r
    · exact hs
    · exact hs
    · dsimp only
      split_ifs
      · exact memPercent_nonneg r
      · exact hs

/-- Witness for C10 on the freshly constructed monitor. -/
theorem C10_memory_wraparound_witness :
    0 ≤ PerformanceMonitor.mk0.memoryUsage ∧
    0 ≤ (updateMonitor
        (UpdateEnv.mk PropOutcome.noRecord MemOutcome.noRecord
          PropOutcome.noRecord)
        PerformanceMonitor.mk0).memoryUsage :=
  ⟨by decide,
   C10_memory_wraparound.2.2.2.2.2.2
     (UpdateEnv.mk PropOutcome.noRecord MemOutcome.noRecord
       PropOutcome.noRecord)
     PerformanceMonitor.mk0 (by decide)⟩
